import Mathlib

/-!
Shallow embedding of the AI-Deepfake-Detection repository.

Part 1: `scripts/split_dataset.py` — the stratified dataset splitter.
Part 2: `app.py` — the Flask prediction endpoint.

Python lists of image paths become Lean `List α`; the global `random`
module (seeded once with `random.seed(RANDOM_SEED)`) is modelled as a
state-passing shuffle function `Nat → List α → List α × Nat` whose first
argument is the generator state consumed by each `random.shuffle` call.
Exceptions become `Except PyError` / an error component, where `PyError`
records the Python exception class name and message.
-/

namespace Splitter

/-- Python exception: class name plus message (from `raise ValueError(...)` etc.). -/
structure PyError where
  cls : String
  msg : String
deriving DecidableEq, Repr

/-- Constant `RANDOM_SEED = 42` (split_dataset.py line 24). -/
def RANDOM_SEED : Nat := 42

/-- Constant `FAKE_DIR = 'data/raw/fake'` (line 27). -/
def FAKE_DIR : String := "data/raw/fake"

/-- Constant `REAL_DIR = 'data/raw/real'` (line 28). -/
def REAL_DIR : String := "data/raw/real"

/-- Constant `OUTPUT_DIR = 'data'` (line 29). -/
def OUTPUT_DIR : String := "data"

/-- Constant `SEED_SIZE_TOTAL = 8050` (line 32). -/
def SEED_SIZE_TOTAL : Nat := 8050

/-- Constant `VALIDATION_SIZE_TOTAL = 700` (line 33). -/
def VALIDATION_SIZE_TOTAL : Nat := 700

/-- Constant `NUM_QUARTILES = 4` (line 37). -/
def NUM_QUARTILES : Nat := 4

/-- Constant `TOTAL_FAKE_IMAGES = 80001` (line 38). -/
def TOTAL_FAKE_IMAGES : Nat := 80001

/-- The static `FAKE_QUARTILES` table (lines 43-48), kept as `(start, end)`
index pairs; the human-readable label strings are dropped. -/
def FAKE_QUARTILES_static : List (Nat × Nat) :=
  [(0, 20000), (20000, 40000), (40000, 60000), (60000, 80001)]

/-- The recomputed quartile table (lines 131-139): when the observed fake
count `n` differs from `TOTAL_FAKE_IMAGES`, boundaries are rebuilt from
`actual_quartile_size = n // NUM_QUARTILES`, the final quartile ending at
`n` instead. -/
def computeQuartiles (n : Nat) : List (Nat × Nat) :=
  (List.range NUM_QUARTILES).map (fun i =>
    (i * (n / NUM_QUARTILES),
     if i < NUM_QUARTILES - 1 then (i + 1) * (n / NUM_QUARTILES) else n))

/-- The quartile table actually used for a fake list of length `n`
(lines 127-139): the static table when `n = TOTAL_FAKE_IMAGES`, the
recomputed one otherwise. -/
def quartilesFor (n : Nat) : List (Nat × Nat) :=
  if n = TOTAL_FAKE_IMAGES then FAKE_QUARTILES_static else computeQuartiles n

/-- Computation `seed_real_count = SEED_SIZE_TOTAL // 2` (line 148), parameterized over
the configured total. -/
def seed_real_count (seedSizeTotal : Nat) : Nat := seedSizeTotal / 2

/-- Computation `seed_fake_count = SEED_SIZE_TOTAL - seed_real_count` (line 149). -/
def seed_fake_count (seedSizeTotal : Nat) : Nat :=
  seedSizeTotal - seed_real_count seedSizeTotal

/-- Computation `val_real_count = VALIDATION_SIZE_TOTAL // 2` (line 153). -/
def val_real_count (valSizeTotal : Nat) : Nat := valSizeTotal / 2

/-- Computation `val_fake_count = VALIDATION_SIZE_TOTAL - val_real_count` (line 154). -/
def val_fake_count (valSizeTotal : Nat) : Nat :=
  valSizeTotal - val_real_count valSizeTotal

/-- Python slice `l[start:end]` on a list (non-negative indices, as used
throughout the splitter). -/
def pySlice (l : List α) (start stop : Nat) : List α :=
  (l.drop start).take (stop - start)

/-- What one loop iteration of STEP 4 (lines 191-237) contributes to the
seed/validation/pool accumulators for a single quartile. -/
structure QuartileContrib (α : Type) where
  seed : List α
  val : List α
  pool : List α
deriving DecidableEq, Repr

/-- The STEP 4 loop over `FAKE_QUARTILES` (lines 191-237): slice the
quartile out of `fake`, skip it when empty (`continue`, which happens
before the shuffle so the generator state is untouched), otherwise
shuffle it with the threaded generator state, give the last quartile the
integer-division remainders, and cut the shuffled slice into
seed / validation / pool segments.  Returns the per-quartile
contributions in order together with the final generator state. -/
def fakeLoop (shuffle : Nat → List α → List α × Nat) (sfq vfq srem vrem : Nat)
    (fake : List α) : List (Nat × Nat) → Nat → Nat → List (QuartileContrib α) × Nat
  | [], _, s => ([], s)
  | (st, en) :: rest, qIdx, s =>
    let qImages := pySlice fake st en
    if qImages.length = 0 then
      fakeLoop shuffle sfq vfq srem vrem fake rest (qIdx + 1) s
    else
      let sh := shuffle s qImages
      let qSeedCount := sfq + (if qIdx = NUM_QUARTILES - 1 then srem else 0)
      let qValCount := vfq + (if qIdx = NUM_QUARTILES - 1 then vrem else 0)
      let contrib : QuartileContrib α :=
        ⟨sh.1.take qSeedCount,
         (sh.1.drop qSeedCount).take qValCount,
         sh.1.drop (qSeedCount + qValCount)⟩
      let r := fakeLoop shuffle sfq vfq srem vrem fake rest (qIdx + 1) sh.2
      (contrib :: r.1, r.2)

/-- STEP 4 wrapper: per-quartile fake contributions for a run configured
with the given seed/validation totals, starting from generator state `s0`. -/
def splitFakeContribs (shuffle : Nat → List α → List α × Nat) (s0 : Nat)
    (seedSizeTotal valSizeTotal : Nat) (fake : List α) :
    List (QuartileContrib α) × Nat :=
  let sfc := seed_fake_count seedSizeTotal
  let vfc := val_fake_count valSizeTotal
  fakeLoop shuffle (sfc / NUM_QUARTILES) (vfc / NUM_QUARTILES)
    (sfc % NUM_QUARTILES) (vfc % NUM_QUARTILES)
    fake (quartilesFor fake.length) 0 s0

/-- The in-memory file-to-split assignment produced by STEPs 4-5. -/
structure SplitAssignment (α : Type) where
  seedReals : List α
  valReals : List α
  poolReals : List α
  seedFakes : List α
  valFakes : List α
  poolFakes : List α
deriving DecidableEq, Repr

/-- STEPs 1-5 of `stratified_split_dataset` (lines 95-262) as a pure
function of the shuffle generator, its initial state, the configured
totals, and the two sorted input lists: the empty-input check
(lines 124-125, `raise ValueError`), the quartile-stratified fake split
(STEP 4, via `splitFakeContribs`), and the single-shuffle real split
(STEP 5, lines 252-257).  The generator state left by the four fake
shuffles is consumed by the real shuffle, as in the source where all
calls share the one seeded global generator. -/
def stratified_split_core (shuffle : Nat → List α → List α × Nat) (s0 : Nat)
    (seedSizeTotal valSizeTotal : Nat) (fake real : List α) :
    Except PyError (SplitAssignment α) :=
  if fake.length = 0 ∨ real.length = 0 then
    .error ⟨"ValueError", "❌ No images found! Check your data paths."⟩
  else
    let src := seed_real_count seedSizeTotal
    let vrc := val_real_count valSizeTotal
    let fakeRes := splitFakeContribs shuffle s0 seedSizeTotal valSizeTotal fake
    let shuffledReal := (shuffle fakeRes.2 real).1
    .ok
      { seedReals := shuffledReal.take src
        valReals := (shuffledReal.drop src).take vrc
        poolReals := shuffledReal.drop (src + vrc)
        seedFakes := (fakeRes.1.map QuartileContrib.seed).flatten
        valFakes := (fakeRes.1.map QuartileContrib.val).flatten
        poolFakes := (fakeRes.1.map QuartileContrib.pool).flatten }

/-- A file-system path split into its directory and final component, the
granularity at which the repository manipulates paths
(`dest_dir / f.name`, `app.config['UPLOAD_FOLDER'] / filename`). -/
structure FileRef where
  dir : String
  name : String
deriving DecidableEq, Repr

/-- A file system: an association list from paths to file contents.
Writes shadow older entries; reads return the most recent write. -/
def FS (β : Type) : Type := List (FileRef × β)

/-- Read a path (Python `open` / `Path.exists` view of the store). -/
def FS.read (fs : FS β) (p : FileRef) : Option β :=
  (List.find? (fun e => e.1 = p) fs).map (fun e => e.2)

/-- Write (create or overwrite) a path. -/
def FS.write (fs : FS β) (p : FileRef) (c : β) : FS β := (p, c) :: fs

/-- Operation `Path.unlink`: remove every record of the path. -/
def FS.unlink (fs : FS β) (p : FileRef) : FS β :=
  List.filter (fun e => e.1 ≠ p) fs

/-- Model of `shutil.copy2(f, dest_dir / f.name)` (line 275): read the source file
and write its content under the source's filename inside `dest_dir`;
a missing source raises (FileNotFoundError). -/
def copy2 (fs : FS β) (f : FileRef) (destDir : String) : Except PyError (FS β) :=
  match fs.read f with
  | some c => .ok (fs.write ⟨destDir, f.name⟩ c)
  | none => .error ⟨"FileNotFoundError", f.dir ++ "/" ++ f.name⟩

/-- Function `copy_files(file_list, dest_dir, desc)` (lines 271-275): copy each
listed file into `dest_dir` in order; the first failure propagates. -/
def copy_files (fs : FS β) (fileList : List FileRef) (destDir : String) :
    Except PyError (FS β) :=
  fileList.foldlM (fun acc f => copy2 acc f destDir) fs

/-- STEP 6 (lines 277-293): the six `copy_files` calls, in source order. -/
def copyPhase (fs : FS β) (a : SplitAssignment FileRef) : Except PyError (FS β) := do
  let fs ← copy_files fs a.seedReals (OUTPUT_DIR ++ "/seed/real")
  let fs ← copy_files fs a.seedFakes (OUTPUT_DIR ++ "/seed/fake")
  let fs ← copy_files fs a.valReals (OUTPUT_DIR ++ "/validation/real")
  let fs ← copy_files fs a.valFakes (OUTPUT_DIR ++ "/validation/fake")
  let fs ← copy_files fs a.poolReals (OUTPUT_DIR ++ "/pool/real")
  let fs ← copy_files fs a.poolFakes (OUTPUT_DIR ++ "/pool/fake")
  return fs

/-- Function `stratified_split_dataset` up to the end of the copy phase, acting on
a file-system store: STEPs 1-5 via `stratified_split_core`, then STEP 6
via `copyPhase`.  Returns the raised exception (if any) together with the
file system as it stands when the function aborts or finishes, so that
"no file was copied before the error" is directly observable. -/
def stratified_split_run (shuffle : Nat → List FileRef → List FileRef × Nat)
    (s0 : Nat) (seedSizeTotal valSizeTotal : Nat) (fake real : List FileRef)
    (fs : FS β) : Option PyError × Option (SplitAssignment FileRef) × FS β :=
  match stratified_split_core shuffle s0 seedSizeTotal valSizeTotal fake real with
  | .error e => (some e, none, fs)
  | .ok a =>
    match copyPhase fs a with
    | .error e => (some e, some a, fs)
    | .ok fs1 => (none, some a, fs1)

end Splitter

namespace App

open Splitter (PyError FileRef FS)

/-- Constant `ALLOWED_EXTENSIONS` (app.py line 46). -/
def ALLOWED_EXTENSIONS : List String := ["png", "jpg", "jpeg", "gif", "bmp", "webp"]

/-- Function `allowed_file(filename)` (app.py lines 71-73):
`'.' in filename and filename.rsplit('.', 1)[1].lower() in ALLOWED_EXTENSIONS`.
Working on the character list of the string, `rsplit('.', 1)[1]` is the
(reversed reverse-prefix of) characters after the last dot, and
`.lower()` lowercases them character by character. -/
def allowed_file (filename : String) : Bool :=
  filename.data.contains '.' &&
    ALLOWED_EXTENSIONS.contains
      (String.mk (((filename.data.reverse.takeWhile (fun c => c ≠ '.')).reverse).map
        Char.toLower))

/-- The JSON object returned by `predict_image` (app.py lines 113-119).
Python floats are modelled by exact rationals. -/
structure PredictResult where
  label : String
  confidence : ℚ
  fake_prob : ℚ
  real_prob : ℚ
  raw_prediction : ℚ
deriving DecidableEq, Repr

/-- Post-processing of the model output in `predict_image`
(app.py lines 101-119), as a function of the raw model prediction
`model.predict(...)[0][0]`. -/
def predict_image (prediction : ℚ) : PredictResult :=
  let fake_probability : ℚ := prediction
  let real_probability : ℚ := 1 - fake_probability
  let is_fake : Bool := fake_probability > 1/2
  let label : String := if is_fake then "FAKE" else "REAL"
  let confidence : ℚ := max fake_probability real_probability
  { label := label
    confidence := confidence
    fake_prob := fake_probability
    real_prob := real_probability
    raw_prediction := prediction }

/-- The `'file'` entry of `request.files`: original filename and content. -/
structure UploadedFile where
  filename : String
  content : String
deriving DecidableEq, Repr

/-- An `/api/predict` request: the optional `'file'` field. -/
structure Request where
  file : Option UploadedFile
deriving DecidableEq, Repr

/-- An HTTP response from the handler: status code and either a success
payload (the prediction result and echoed original filename) or an error
message body. -/
inductive ApiResponse where
  | ok (status : Nat) (result : PredictResult) (filename : String)
  | err (status : Nat) (message : String)
deriving DecidableEq, Repr

/-- The upload directory `app.config['UPLOAD_FOLDER']` (app.py line 43). -/
def UPLOAD_FOLDER : String := "uploads"

/-- Handler `api_predict` (app.py lines 128-178).  External effects are
parameters: `modelOut` is the outcome of the model call inside
`predict_image` (a raw prediction, or a raised exception message), and
`secureName` is werkzeug's `secure_filename`; `timestampName` stands for
`datetime.now().timestamp()`.  The handler validates the upload, saves it
under `UPLOAD_FOLDER`, runs the prediction inside try/except/finally, and
the finally block unlinks the saved path whether or not the prediction
raised.  Returns the response and the resulting file system. -/
def api_predict (modelOut : Except String ℚ) (secureName : String → String)
    (timestampName : String) (req : Request) (fs : FS String) :
    ApiResponse × FS String :=
  match req.file with
  | none => (.err 400 "No file provided", fs)
  | some file =>
    if file.filename = "" then
      (.err 400 "No file selected", fs)
    else if allowed_file file.filename = false then
      (.err 400 "File type not allowed. Allowed: png, jpg, jpeg, gif, bmp, webp", fs)
    else
      let filename := secureName (timestampName ++ "_" ++ file.filename)
      let filepath : FileRef := ⟨UPLOAD_FOLDER, filename⟩
      let fs1 := fs.write filepath file.content
      match modelOut with
      | .ok p => (.ok 200 (predict_image p) file.filename, fs1.unlink filepath)
      | .error e => (.err 500 e, fs1.unlink filepath)

end App

/-!
Shared helpers for the verification: a concrete stand-in generator used by
witnesses, and small file-system read/write lemmas.
-/

namespace Splitter

/-- A concrete deterministic generator usable wherever the abstract shuffle
parameter needs an instance: it reverses the list and steps the state. -/
def revShuffle (s : Nat) (l : List α) : List α × Nat := (l.reverse, s + 1)

/-- The concrete generator produces a permutation of its input. -/
theorem revShuffle_perm (s : Nat) (l : List α) : ((revShuffle s l).1).Perm l :=
  l.reverse_perm

/-- Reading back a just-written path returns the written content. -/
theorem FS.read_write_same (fs : FS β) (p : FileRef) (c : β) :
    (fs.write p c).read p = some c := by
  simp [FS.read, FS.write, List.find?]

/-- Writing one path does not change reads of another. -/
theorem FS.read_write_ne (fs : FS β) (p q : FileRef) (c : β) (h : q ≠ p) :
    (fs.write p c).read q = fs.read q := by
  have hne : ¬ p = q := fun hpq => h hpq.symm
  simp only [FS.read, FS.write, List.find?]
  simp [hne]

/-- After `unlink p`, the path `p` is gone. -/
theorem FS.read_unlink_same (fs : FS β) (p : FileRef) :
    (fs.unlink p).read p = none := by
  induction fs with
  | nil => rfl
  | cons e rest ih =>
    by_cases h : e.1 = p
    · simpa [FS.unlink, h] using ih
    · simp only [FS.unlink, List.filter] at ih ⊢
      simp only [FS.read] at ih ⊢
      simp [h, ih]

end Splitter

namespace App

open Splitter (FileRef FS)

/-- C9: the fields of a `predict_image` result are mutually consistent:
`real_prob = 1 - fake_prob`, `confidence = max fake_prob real_prob` and is
at least one half, the label is `"FAKE"` exactly when `fake_prob > 0.5`,
and a prediction of exactly one half is labelled `"REAL"`. -/
theorem C9_predict_image_consistent (p : ℚ) :
    (predict_image p).real_prob = 1 - (predict_image p).fake_prob ∧
    (predict_image p).confidence =
      max (predict_image p).fake_prob (predict_image p).real_prob ∧
    (1 : ℚ)/2 ≤ (predict_image p).confidence ∧
    ((predict_image p).label = "FAKE" ↔ (1 : ℚ)/2 < (predict_image p).fake_prob) ∧
    ((predict_image p).fake_prob = 1/2 → (predict_image p).label = "REAL") := by
  by_cases h : (1 : ℚ)/2 < p
  · refine ⟨rfl, rfl, ?_, ?_, ?_⟩
    · simp only [predict_image]
      calc (1 : ℚ)/2 ≤ p := le_of_lt h
        _ ≤ max p (1 - p) := le_max_left _ _
    · simp [predict_image, h]
    · intro hp
      simp only [predict_image] at hp
      rw [hp] at h
      norm_num at h
  · refine ⟨rfl, rfl, ?_, ?_, ?_⟩
    · simp only [predict_image]
      have h2 : (1 : ℚ)/2 ≤ 1 - p := by linarith [not_lt.mp h]
      calc (1 : ℚ)/2 ≤ 1 - p := h2
        _ ≤ max p (1 - p) := le_max_right _ _
    · simp [predict_image, h]
    · intro _
      simp only [predict_image]
      rw [if_neg]
      simp only [decide_eq_true_eq]
      exact h

/-- C8: whenever an `/api/predict` upload passes validation (a `file` field
is present, its filename is non-empty and has an allowed extension), the
temporary file saved under the upload folder is gone from the file system
the handler returns, whatever the outcome of the model call. -/
theorem C8_temp_file_deleted (modelOut : Except String ℚ)
    (secureName : String → String) (timestampName : String)
    (f : UploadedFile) (fs : FS String)
    (hname : f.filename ≠ "") (hext : allowed_file f.filename = true) :
    ((api_predict modelOut secureName timestampName ⟨some f⟩ fs).2).read
      ⟨UPLOAD_FOLDER, secureName (timestampName ++ "_" ++ f.filename)⟩ = none := by
  cases modelOut with
  | ok p => simp [api_predict, hname, hext, Splitter.FS.read_unlink_same]
  | error e => simp [api_predict, hname, hext, Splitter.FS.read_unlink_same]

/-- Closed witness for C8 at a concrete request. -/
theorem C8_temp_file_deleted_witness :
    ("a.png" : String) ≠ "" ∧ allowed_file "a.png" = true ∧
    ((api_predict (.ok (1/4 : ℚ)) id "17" ⟨some ⟨"a.png", "bytes"⟩⟩ []).2).read
      ⟨UPLOAD_FOLDER, id ("17" ++ "_" ++ "a.png")⟩ = none :=
  ⟨by decide, by decide,
    C8_temp_file_deleted (.ok (1/4 : ℚ)) id "17" ⟨"a.png", "bytes"⟩ []
      (by decide) (by decide)⟩

/-- C10: a request that fails validation (no `file` field, empty filename,
or an extension outside the allowed set) is answered with status 400 and a
structured error body, and the file system is left untouched; moreover a
filename without a dot is never allowed. -/
theorem C10_validation_failure_no_write (modelOut : Except String ℚ)
    (secureName : String → String) (timestampName : String)
    (req : Request) (fs : FS String)
    (h : req.file = none ∨
      ∃ f, req.file = some f ∧
        (f.filename = "" ∨ allowed_file f.filename = false)) :
    (∃ msg, (api_predict modelOut secureName timestampName req fs).1 = .err 400 msg) ∧
    (api_predict modelOut secureName timestampName req fs).2 = fs ∧
    (∀ s : String, s.data.contains '.' = false → allowed_file s = false) := by
  refine ⟨?_, ?_, ?_⟩
  · rcases h with h | ⟨f, hf, hbad⟩
    · exact ⟨"No file provided", by simp [api_predict, h]⟩
    · by_cases hemp : f.filename = ""
      · exact ⟨"No file selected", by simp [api_predict, hf, hemp]⟩
      · rcases hbad with hbad | hbad
        · exact absurd hbad hemp
        · exact ⟨"File type not allowed. Allowed: png, jpg, jpeg, gif, bmp, webp",
            by simp [api_predict, hf, hemp, hbad]⟩
  · rcases h with h | ⟨f, hf, hbad⟩
    · simp [api_predict, h]
    · by_cases hemp : f.filename = ""
      · simp [api_predict, hf, hemp]
      · rcases hbad with hbad | hbad
        · exact absurd hbad hemp
        · simp [api_predict, hf, hemp, hbad]
  · intro s hs
    have hmem : ('.' : Char) ∉ s.data := by simpa using hs
    simp [allowed_file, hmem]

/-- Closed witness for C10 at a concrete request with no `file` field. -/
theorem C10_validation_failure_no_write_witness :
    ((⟨none⟩ : Request).file = none ∨
      ∃ f, (⟨none⟩ : Request).file = some f ∧
        (f.filename = "" ∨ allowed_file f.filename = false)) ∧
    ((∃ msg, (api_predict (.ok (0 : ℚ)) id "17" ⟨none⟩ []).1 = .err 400 msg) ∧
    (api_predict (.ok (0 : ℚ)) id "17" ⟨none⟩ []).2 = [] ∧
    (∀ s : String, s.data.contains '.' = false → allowed_file s = false)) :=
  ⟨Or.inl rfl, C10_validation_failure_no_write (.ok (0 : ℚ)) id "17" ⟨none⟩ [] (Or.inl rfl)⟩

end App

namespace Splitter

/-- Membership of index `k` in a `(start, end)` band: `start ≤ k < end`. -/
def inBand (p : Nat × Nat) (k : Nat) : Prop := p.1 ≤ k ∧ k < p.2

instance (p : Nat × Nat) (k : Nat) : Decidable (inBand p k) := by
  unfold inBand
  infer_instance

/-- The recomputed quartile table, written out. -/
theorem computeQuartiles_eq (n : Nat) :
    computeQuartiles n =
      [(0 * (n / 4), 1 * (n / 4)), (1 * (n / 4), 2 * (n / 4)),
       (2 * (n / 4), 3 * (n / 4)), (3 * (n / 4), n)] := rfl

/-- C5: when the synthetic-class count `n` differs from the expected
constant 80001, the splitter recomputes the quartile table from `n`:
it has `NUM_QUARTILES` bands, each of size `n / NUM_QUARTILES` except the
final one which also absorbs `n % NUM_QUARTILES`; consecutive bands are
contiguous, the bands are pairwise non-overlapping, and together they
cover exactly the index range `[0, n)`. -/
theorem C5_quartiles_recomputed (n : Nat) (hne : n ≠ TOTAL_FAKE_IMAGES) :
    quartilesFor n = computeQuartiles n ∧
    (quartilesFor n).length = NUM_QUARTILES ∧
    (∀ i, i < NUM_QUARTILES - 1 →
      ((quartilesFor n).getD i (0, 0)).2 - ((quartilesFor n).getD i (0, 0)).1
        = n / NUM_QUARTILES) ∧
    ((quartilesFor n).getD (NUM_QUARTILES - 1) (0, 0)).2
        - ((quartilesFor n).getD (NUM_QUARTILES - 1) (0, 0)).1
      = n / NUM_QUARTILES + n % NUM_QUARTILES ∧
    ((quartilesFor n).getD 0 (0, 0)).1 = 0 ∧
    ((quartilesFor n).getD (NUM_QUARTILES - 1) (0, 0)).2 = n ∧
    (∀ i, i + 1 < NUM_QUARTILES →
      ((quartilesFor n).getD i (0, 0)).2 = ((quartilesFor n).getD (i + 1) (0, 0)).1) ∧
    (∀ k, k < n ↔ ∃ i, i < NUM_QUARTILES ∧ inBand ((quartilesFor n).getD i (0, 0)) k) ∧
    (∀ k i j, i < NUM_QUARTILES → j < NUM_QUARTILES →
      inBand ((quartilesFor n).getD i (0, 0)) k →
      inBand ((quartilesFor n).getD j (0, 0)) k → i = j) := by
  have hq : quartilesFor n = computeQuartiles n := by
    simp [quartilesFor, hne]
  rw [hq, computeQuartiles_eq]
  refine ⟨rfl, rfl, ?_, ?_, ?_, ?_, ?_, ?_, ?_⟩
  · intro i hi
    simp only [NUM_QUARTILES] at hi ⊢
    interval_cases i <;> simp [List.getD] <;> omega
  · simp only [NUM_QUARTILES]
    simp [List.getD]
    omega
  · simp [List.getD]
  · simp only [NUM_QUARTILES]
    simp [List.getD]
  · intro i hi
    simp only [NUM_QUARTILES] at hi ⊢
    have hi3 : i < 3 := by omega
    interval_cases i <;> simp [List.getD]
  · intro k
    simp only [NUM_QUARTILES]
    constructor
    · intro hk
      by_cases h0 : k < 1 * (n / 4)
      · exact ⟨0, by omega, by simp [List.getD, inBand]; omega⟩
      · by_cases h1 : k < 2 * (n / 4)
        · exact ⟨1, by omega, by simp [List.getD, inBand]; omega⟩
        · by_cases h2 : k < 3 * (n / 4)
          · exact ⟨2, by omega, by simp [List.getD, inBand]; omega⟩
          · exact ⟨3, by omega, by simp [List.getD, inBand]; omega⟩
    · rintro ⟨i, hi, hband⟩
      interval_cases i <;> simp [List.getD, inBand] at hband <;> omega
  · intro k i j hi hj hbi hbj
    simp only [NUM_QUARTILES] at hi hj
    interval_cases i <;> interval_cases j <;>
      simp [List.getD, inBand] at hbi hbj <;> omega

/-- Closed witness for C5 at the concrete count 10. -/
theorem C5_quartiles_recomputed_witness :
    (10 : Nat) ≠ TOTAL_FAKE_IMAGES ∧
    (quartilesFor 10 = computeQuartiles 10 ∧
    (quartilesFor 10).length = NUM_QUARTILES ∧
    (∀ i, i < NUM_QUARTILES - 1 →
      ((quartilesFor 10).getD i (0, 0)).2 - ((quartilesFor 10).getD i (0, 0)).1
        = 10 / NUM_QUARTILES) ∧
    ((quartilesFor 10).getD (NUM_QUARTILES - 1) (0, 0)).2
        - ((quartilesFor 10).getD (NUM_QUARTILES - 1) (0, 0)).1
      = 10 / NUM_QUARTILES + 10 % NUM_QUARTILES ∧
    ((quartilesFor 10).getD 0 (0, 0)).1 = 0 ∧
    ((quartilesFor 10).getD (NUM_QUARTILES - 1) (0, 0)).2 = 10 ∧
    (∀ i, i + 1 < NUM_QUARTILES →
      ((quartilesFor 10).getD i (0, 0)).2 = ((quartilesFor 10).getD (i + 1) (0, 0)).1) ∧
    (∀ k, k < 10 ↔ ∃ i, i < NUM_QUARTILES ∧ inBand ((quartilesFor 10).getD i (0, 0)) k) ∧
    (∀ k i j, i < NUM_QUARTILES → j < NUM_QUARTILES →
      inBand ((quartilesFor 10).getD i (0, 0)) k →
      inBand ((quartilesFor 10).getD j (0, 0)) k → i = j)) :=
  ⟨by decide, C5_quartiles_recomputed 10 (by decide)⟩

/-- C2: the split assignment is a deterministic function of the seeded
generator and the two input lists: runs driven by extensionally equal
shuffle functions from the same initial generator state, on the same
inputs and configuration, produce identical assignments. -/
theorem C2_split_deterministic (shuffle1 shuffle2 : Nat → List α → List α × Nat)
    (hsh : ∀ s l, shuffle1 s l = shuffle2 s l) (s0 seedSizeTotal valSizeTotal : Nat)
    (fake real : List α) :
    stratified_split_core shuffle1 s0 seedSizeTotal valSizeTotal fake real =
      stratified_split_core shuffle2 s0 seedSizeTotal valSizeTotal fake real := by
  have h : shuffle1 = shuffle2 := funext fun s => funext fun l => hsh s l
  rw [h]

/-- Closed witness for C2 with the concrete generator on concrete inputs. -/
theorem C2_split_deterministic_witness :
    stratified_split_core (revShuffle (α := Nat)) 0 8 4 [1, 2, 3] [4, 5] =
      stratified_split_core (revShuffle (α := Nat)) 0 8 4 [1, 2, 3] [4, 5] :=
  C2_split_deterministic revShuffle revShuffle (fun _ _ => rfl) 0 8 4 [1, 2, 3] [4, 5]

end Splitter

namespace Splitter

/-- C4: the per-class targets give the authentic class half of each total
rounded down and the synthetic class the rest (so an odd total hands the
synthetic class the extra unit), and on any input with at least
`seed_real_count + val_real_count` authentic files the seed and
validation splits contain exactly those many authentic files. -/
theorem C4_per_class_targets (shuffle : Nat → List α → List α × Nat)
    (hperm : ∀ s l, ((shuffle s l).1).Perm l) (s0 : Nat)
    (seedSizeTotal valSizeTotal : Nat) (fake real : List α)
    (hf : fake ≠ []) (hr : real ≠ [])
    (hreal : seed_real_count seedSizeTotal + val_real_count valSizeTotal ≤ real.length) :
    seed_real_count seedSizeTotal = seedSizeTotal / 2 ∧
    seed_fake_count seedSizeTotal = seedSizeTotal - seed_real_count seedSizeTotal ∧
    seed_fake_count seedSizeTotal = seed_real_count seedSizeTotal + seedSizeTotal % 2 ∧
    val_real_count valSizeTotal = valSizeTotal / 2 ∧
    val_fake_count valSizeTotal = valSizeTotal - val_real_count valSizeTotal ∧
    val_fake_count valSizeTotal = val_real_count valSizeTotal + valSizeTotal % 2 ∧
    ∃ a, stratified_split_core shuffle s0 seedSizeTotal valSizeTotal fake real = .ok a ∧
      a.seedReals.length = seed_real_count seedSizeTotal ∧
      a.valReals.length = val_real_count valSizeTotal := by
  have hlen : ¬ (fake.length = 0 ∨ real.length = 0) := by
    simp [List.length_eq_zero, hf, hr]
  refine ⟨rfl, rfl, ?_, rfl, rfl, ?_, ?_⟩
  · unfold seed_fake_count seed_real_count
    omega
  · unfold val_fake_count val_real_count
    omega
  · simp only [stratified_split_core, if_neg hlen]
    refine ⟨_, rfl, ?_, ?_⟩
    · have hsh :=
        (hperm (splitFakeContribs shuffle s0 seedSizeTotal valSizeTotal fake).2 real).length_eq
      simp only [List.length_take, hsh]
      omega
    · have hsh :=
        (hperm (splitFakeContribs shuffle s0 seedSizeTotal valSizeTotal fake).2 real).length_eq
      simp only [List.length_take, List.length_drop, hsh]
      omega

/-- Closed witness for C4 with the concrete generator on concrete inputs. -/
theorem C4_per_class_targets_witness :
    (seed_real_count 5 + val_real_count 2 ≤ ([10, 11, 12, 13] : List Nat).length) ∧
    (seed_real_count 5 = 5 / 2 ∧
    seed_fake_count 5 = 5 - seed_real_count 5 ∧
    seed_fake_count 5 = seed_real_count 5 + 5 % 2 ∧
    val_real_count 2 = 2 / 2 ∧
    val_fake_count 2 = 2 - val_real_count 2 ∧
    val_fake_count 2 = val_real_count 2 + 2 % 2 ∧
    ∃ a, stratified_split_core revShuffle 0 5 2 [1] [10, 11, 12, 13] = .ok a ∧
      a.seedReals.length = seed_real_count 5 ∧
      a.valReals.length = val_real_count 2) :=
  ⟨by decide,
    C4_per_class_targets revShuffle revShuffle_perm 0 5 2 [1] [10, 11, 12, 13]
      (by decide) (by decide) (by decide)⟩

end Splitter

namespace Splitter

/-- C6 (amended): on any input where either class list is empty, the run
raises `ValueError` (line 125) and aborts with the file system untouched:
no file has been copied to any destination directory. -/
theorem C6_empty_input_aborts (shuffle : Nat → List FileRef → List FileRef × Nat)
    (s0 seedSizeTotal valSizeTotal : Nat) (fake real : List FileRef) (fs : FS β)
    (h : fake = [] ∨ real = []) :
    stratified_split_run shuffle s0 seedSizeTotal valSizeTotal fake real fs =
      (some ⟨"ValueError", "❌ No images found! Check your data paths."⟩, none, fs) := by
  rcases h with h | h <;>
    simp [stratified_split_run, stratified_split_core, h]

/-- Closed witness for C6 (amended) on a concrete empty fake list. -/
theorem C6_empty_input_aborts_witness :
    (([] : List FileRef) = [] ∨ ([⟨REAL_DIR, "a.jpg"⟩] : List FileRef) = []) ∧
    stratified_split_run revShuffle RANDOM_SEED SEED_SIZE_TOTAL VALIDATION_SIZE_TOTAL
        [] [⟨REAL_DIR, "a.jpg"⟩] ([] : FS String) =
      (some ⟨"ValueError", "❌ No images found! Check your data paths."⟩, none, []) :=
  ⟨Or.inl rfl,
    C6_empty_input_aborts revShuffle RANDOM_SEED SEED_SIZE_TOTAL VALIDATION_SIZE_TOTAL
      [] [⟨REAL_DIR, "a.jpg"⟩] [] (Or.inl rfl)⟩

/-- Counterexample to C6 as stated: on an empty synthetic-class input the
run fails, but the raised exception's class is `ValueError`, not the
`ConfigurationError` named by the spec (no such exception class exists in
the repository). -/
theorem C6_configuration_error_counterexample :
    (stratified_split_run revShuffle RANDOM_SEED SEED_SIZE_TOTAL VALIDATION_SIZE_TOTAL
        [] [⟨REAL_DIR, "a.jpg"⟩] ([] : FS String)).1.map PyError.cls
      = some "ValueError" ∧
    ("ValueError" : String) ≠ "ConfigurationError" := by
  constructor
  · rfl
  · decide

end Splitter

namespace Splitter

/-- A band list `[(a, c1), (c1, c2), ...]` is a chain from `a` to `b`:
each band starts where the previous ended, bands are well-formed
(`start ≤ end`), and the last band ends at `b`. -/
def chainOK : Nat → List (Nat × Nat) → Nat → Prop
  | a, [], b => a = b
  | a, (st, en) :: rest, b => st = a ∧ a ≤ en ∧ chainOK en rest b

/-- Unfolding rule for `chainOK` on the empty chain. -/
theorem chainOK_nil (a b : Nat) : chainOK a [] b ↔ a = b := Iff.rfl

/-- Unfolding rule for `chainOK` on a cons. -/
theorem chainOK_cons (a st en b : Nat) (rest : List (Nat × Nat)) :
    chainOK a ((st, en) :: rest) b ↔ st = a ∧ a ≤ en ∧ chainOK en rest b := Iff.rfl

/-- A chain only moves forward. -/
theorem chainOK_le : ∀ (qs : List (Nat × Nat)) (a b : Nat), chainOK a qs b → a ≤ b
  | [], _, _, h => le_of_eq h
  | (_, en) :: rest, _, b, h => le_trans h.2.1 (chainOK_le rest en b h.2.2)

/-- Slicing a list along a chain of bands reaching its length and
concatenating the slices reproduces the list from the chain's start. -/
theorem bands_flatten (l : List α) (qs : List (Nat × Nat)) :
    ∀ a : Nat, chainOK a qs l.length →
      (qs.map (fun p => pySlice l p.1 p.2)).flatten = l.drop a := by
  induction qs with
  | nil =>
    intro a h
    have ha : a = l.length := h
    simp [ha, List.drop_length]
  | cons q rest ih =>
    obtain ⟨st, en⟩ := q
    intro a h
    obtain ⟨hst, hae, hrest⟩ := h
    simp only [List.map_cons, List.flatten_cons, ih en hrest, hst]
    unfold pySlice
    have h1 : l.drop en = (l.drop a).drop (en - a) := by
      rw [List.drop_drop]
      congr 1
      omega
    rw [h1, List.take_append_drop]

/-- Every quartile table the splitter uses is a chain covering `[0, n)`. -/
theorem chainOK_quartilesFor (n : Nat) : chainOK 0 (quartilesFor n) n := by
  by_cases h : n = TOTAL_FAKE_IMAGES
  · subst h
    have hq : quartilesFor TOTAL_FAKE_IMAGES = FAKE_QUARTILES_static := by
      unfold quartilesFor
      rw [if_pos rfl]
    rw [hq]
    unfold FAKE_QUARTILES_static TOTAL_FAKE_IMAGES
    repeat' apply And.intro
    all_goals first | omega | rfl
  · have hq : quartilesFor n = computeQuartiles n := by
      unfold quartilesFor
      rw [if_neg h]
    rw [hq, computeQuartiles_eq]
    repeat' apply And.intro
    all_goals first | omega | rfl

/-- Cutting a list into an initial segment, a middle segment and a tail
and concatenating them back reproduces the list. -/
theorem take_drop_three (l : List α) (a b : Nat) :
    l.take a ++ ((l.drop a).take b ++ l.drop (a + b)) = l := by
  have h1 : l.drop (a + b) = (l.drop a).drop b := by
    rw [List.drop_drop]
  rw [h1, List.take_append_drop, List.take_append_drop]

/-- The quartile loop conserves records: taken together, the seed,
validation and pool contributions hold exactly the elements of the
processed band slices (counting multiplicity), for any
permutation-producing shuffle. -/
theorem fakeLoop_multiset (shuffle : Nat → List α → List α × Nat)
    (hperm : ∀ s l, ((shuffle s l).1).Perm l) (sfq vfq srem vrem : Nat)
    (fake : List α) :
    ∀ (qs : List (Nat × Nat)) (qIdx s : Nat),
      (↑(((fakeLoop shuffle sfq vfq srem vrem fake qs qIdx s).1.map
            QuartileContrib.seed).flatten) : Multiset α)
        + ↑(((fakeLoop shuffle sfq vfq srem vrem fake qs qIdx s).1.map
            QuartileContrib.val).flatten)
        + ↑(((fakeLoop shuffle sfq vfq srem vrem fake qs qIdx s).1.map
            QuartileContrib.pool).flatten)
      = ↑((qs.map (fun p => pySlice fake p.1 p.2)).flatten) := by
  intro qs
  induction qs with
  | nil =>
    intro qIdx s
    simp [fakeLoop]
  | cons q rest ih =>
    intro qIdx s
    obtain ⟨st, en⟩ := q
    by_cases hq : (pySlice fake st en).length = 0
    · have hnil : pySlice fake st en = [] := List.length_eq_zero.mp hq
      simp only [fakeLoop, if_pos hq, List.map_cons, List.flatten_cons, hnil,
        List.nil_append]
      exact ih (qIdx + 1) s
    · simp only [fakeLoop, if_neg hq, List.map_cons, List.flatten_cons]
      have hc : (↑((shuffle s (pySlice fake st en)).1.take
            (sfq + if qIdx = NUM_QUARTILES - 1 then srem else 0)) : Multiset α)
          + (↑(((shuffle s (pySlice fake st en)).1.drop
              (sfq + if qIdx = NUM_QUARTILES - 1 then srem else 0)).take
              (vfq + if qIdx = NUM_QUARTILES - 1 then vrem else 0))
            + ↑((shuffle s (pySlice fake st en)).1.drop
              ((sfq + if qIdx = NUM_QUARTILES - 1 then srem else 0)
                + (vfq + if qIdx = NUM_QUARTILES - 1 then vrem else 0))))
          = ↑(pySlice fake st en) := by
        rw [Multiset.coe_add, Multiset.coe_add, take_drop_three]
        exact Multiset.coe_eq_coe.mpr (hperm s (pySlice fake st en))
      rw [← Multiset.coe_add, ← Multiset.coe_add, ← Multiset.coe_add,
        ← Multiset.coe_add]
      rw [← ih (qIdx + 1) (shuffle s (pySlice fake st en)).2] at *
      rw [← hc]
      abel

end Splitter

namespace Splitter

/-- Three concatenated pieces that permute into a duplicate-free list are
pairwise disjoint. -/
theorem perm_three_disjoint {x y z w : List α} (hp : ((x ++ y) ++ z).Perm w)
    (hw : w.Nodup) : x.Disjoint y ∧ x.Disjoint z ∧ y.Disjoint z := by
  have hnod : ((x ++ y) ++ z).Nodup := hp.symm.nodup hw
  rw [List.nodup_append] at hnod
  obtain ⟨hxy, _, hdisj⟩ := hnod
  rw [List.nodup_append] at hxy
  rw [List.disjoint_append_left] at hdisj
  exact ⟨hxy.2.2, hdisj.1, hdisj.2⟩

/-- C1: on any pair of non-empty duplicate-free input lists, the split
succeeds and, class by class, the three output lists are a permutation of
the input (no record lost, none duplicated — each record lands in exactly
one split), are pairwise disjoint, and their lengths sum to the input
length. -/
theorem C1_split_partitions (shuffle : Nat → List α → List α × Nat)
    (hperm : ∀ s l, ((shuffle s l).1).Perm l) (s0 seedSizeTotal valSizeTotal : Nat)
    (fake real : List α) (hf : fake ≠ []) (hr : real ≠ [])
    (hnf : fake.Nodup) (hnr : real.Nodup) :
    ∃ a, stratified_split_core shuffle s0 seedSizeTotal valSizeTotal fake real = .ok a ∧
      ((a.seedFakes ++ a.valFakes) ++ a.poolFakes).Perm fake ∧
      ((a.seedReals ++ a.valReals) ++ a.poolReals).Perm real ∧
      a.seedFakes.Disjoint a.valFakes ∧ a.seedFakes.Disjoint a.poolFakes ∧
      a.valFakes.Disjoint a.poolFakes ∧
      a.seedReals.Disjoint a.valReals ∧ a.seedReals.Disjoint a.poolReals ∧
      a.valReals.Disjoint a.poolReals ∧
      a.seedFakes.length + a.valFakes.length + a.poolFakes.length = fake.length ∧
      a.seedReals.length + a.valReals.length + a.poolReals.length = real.length := by
  have hlen : ¬ (fake.length = 0 ∨ real.length = 0) := by
    simp [List.length_eq_zero, hf, hr]
  have hband : ((quartilesFor fake.length).map (fun p => pySlice fake p.1 p.2)).flatten
      = fake := by
    have hb := bands_flatten fake (quartilesFor fake.length) 0
      (chainOK_quartilesFor fake.length)
    simpa using hb
  have hms := fakeLoop_multiset shuffle hperm
    (seed_fake_count seedSizeTotal / NUM_QUARTILES)
    (val_fake_count valSizeTotal / NUM_QUARTILES)
    (seed_fake_count seedSizeTotal % NUM_QUARTILES)
    (val_fake_count valSizeTotal % NUM_QUARTILES)
    fake (quartilesFor fake.length) 0 s0
  rw [hband] at hms
  have hfP :
      ((((splitFakeContribs shuffle s0 seedSizeTotal valSizeTotal fake).1.map
          QuartileContrib.seed).flatten
        ++ ((splitFakeContribs shuffle s0 seedSizeTotal valSizeTotal fake).1.map
          QuartileContrib.val).flatten)
        ++ ((splitFakeContribs shuffle s0 seedSizeTotal valSizeTotal fake).1.map
          QuartileContrib.pool).flatten).Perm fake := by
    rw [← Multiset.coe_eq_coe, ← Multiset.coe_add, ← Multiset.coe_add]
    exact hms
  have hrP :
      ((shuffle (splitFakeContribs shuffle s0 seedSizeTotal valSizeTotal fake).2 real).1.take
          (seed_real_count seedSizeTotal)
        ++ (((shuffle (splitFakeContribs shuffle s0 seedSizeTotal valSizeTotal fake).2
              real).1.drop
            (seed_real_count seedSizeTotal)).take (val_real_count valSizeTotal)
          ++ (shuffle (splitFakeContribs shuffle s0 seedSizeTotal valSizeTotal fake).2
              real).1.drop
            (seed_real_count seedSizeTotal + val_real_count valSizeTotal))).Perm real := by
    rw [take_drop_three]
    exact hperm _ real
  have hrP2 := hrP
  rw [← List.append_assoc] at hrP2
  obtain ⟨df1, df2, df3⟩ := perm_three_disjoint hfP hnf
  obtain ⟨dr1, dr2, dr3⟩ := perm_three_disjoint hrP2 hnr
  have hfl := hfP.length_eq
  rw [List.length_append, List.length_append] at hfl
  have hrl := hrP2.length_eq
  rw [List.length_append, List.length_append] at hrl
  simp only [stratified_split_core, if_neg hlen]
  exact ⟨_, rfl, hfP, hrP2, df1, df2, df3, dr1, dr2, dr3, hfl, hrl⟩

end Splitter

namespace Splitter

/-- Closed witness for C1 with the concrete generator on concrete inputs. -/
theorem C1_split_partitions_witness :
    ([0, 1, 2, 3, 4, 5, 6, 7] : List Nat).Nodup ∧
    ([100, 101, 102] : List Nat).Nodup ∧
    ∃ a, stratified_split_core revShuffle 0 8 4 [0, 1, 2, 3, 4, 5, 6, 7] [100, 101, 102]
        = .ok a ∧
      ((a.seedFakes ++ a.valFakes) ++ a.poolFakes).Perm [0, 1, 2, 3, 4, 5, 6, 7] ∧
      ((a.seedReals ++ a.valReals) ++ a.poolReals).Perm [100, 101, 102] ∧
      a.seedFakes.Disjoint a.valFakes ∧ a.seedFakes.Disjoint a.poolFakes ∧
      a.valFakes.Disjoint a.poolFakes ∧
      a.seedReals.Disjoint a.valReals ∧ a.seedReals.Disjoint a.poolReals ∧
      a.valReals.Disjoint a.poolReals ∧
      a.seedFakes.length + a.valFakes.length + a.poolFakes.length
        = ([0, 1, 2, 3, 4, 5, 6, 7] : List Nat).length ∧
      a.seedReals.length + a.valReals.length + a.poolReals.length
        = ([100, 101, 102] : List Nat).length :=
  ⟨by decide, by decide,
    C1_split_partitions revShuffle revShuffle_perm 0 8 4 [0, 1, 2, 3, 4, 5, 6, 7]
      [100, 101, 102] (by decide) (by decide) (by decide) (by decide)⟩

/-- Both branches of the quartile-table computation yield four bands. -/
theorem quartilesFor_four (n : Nat) :
    ∃ q0 q1 q2 q3 : Nat × Nat, quartilesFor n = [q0, q1, q2, q3] := by
  unfold quartilesFor
  by_cases h : n = TOTAL_FAKE_IMAGES
  · rw [if_pos h]
    exact ⟨_, _, _, _, rfl⟩
  · rw [if_neg h, computeQuartiles_eq]
    exact ⟨_, _, _, _, rfl⟩

/-- Unfolding rule for one loop iteration on a non-empty quartile slice. -/
theorem fakeLoop_cons_ne (shuffle : Nat → List α → List α × Nat)
    (sfq vfq srem vrem st en qIdx s : Nat) (fake : List α)
    (rest : List (Nat × Nat)) (h : ¬ (pySlice fake st en).length = 0) :
    fakeLoop shuffle sfq vfq srem vrem fake ((st, en) :: rest) qIdx s =
      (⟨(shuffle s (pySlice fake st en)).1.take
          (sfq + if qIdx = NUM_QUARTILES - 1 then srem else 0),
        ((shuffle s (pySlice fake st en)).1.drop
          (sfq + if qIdx = NUM_QUARTILES - 1 then srem else 0)).take
          (vfq + if qIdx = NUM_QUARTILES - 1 then vrem else 0),
        (shuffle s (pySlice fake st en)).1.drop
          ((sfq + if qIdx = NUM_QUARTILES - 1 then srem else 0)
            + (vfq + if qIdx = NUM_QUARTILES - 1 then vrem else 0))⟩
        :: (fakeLoop shuffle sfq vfq srem vrem fake rest (qIdx + 1)
            (shuffle s (pySlice fake st en)).2).1,
       (fakeLoop shuffle sfq vfq srem vrem fake rest (qIdx + 1)
         (shuffle s (pySlice fake st en)).2).2) := by
  simp only [fakeLoop, if_neg h]

/-- Unfolding rule for the loop on an exhausted quartile table. -/
theorem fakeLoop_nil (shuffle : Nat → List α → List α × Nat)
    (sfq vfq srem vrem qIdx s : Nat) (fake : List α) :
    fakeLoop shuffle sfq vfq srem vrem fake [] qIdx s = ([], s) := rfl

end Splitter

namespace Splitter

/-- C3: when every quartile band is non-empty and large enough to fill its
seed and validation quotas, each of the four quartiles contributes exactly
`seed_fake_count / NUM_QUARTILES` synthetic files to the seed split — the
final quartile additionally absorbing `seed_fake_count % NUM_QUARTILES` —
and likewise for the validation split with `val_fake_count`. -/
theorem C3_quartile_quotas (shuffle : Nat → List α → List α × Nat)
    (hperm : ∀ s l, ((shuffle s l).1).Perm l) (s0 seedSizeTotal valSizeTotal : Nat)
    (fake : List α)
    (hbig : ∀ i, i < NUM_QUARTILES →
      0 < (pySlice fake ((quartilesFor fake.length).getD i (0, 0)).1
            ((quartilesFor fake.length).getD i (0, 0)).2).length ∧
      (seed_fake_count seedSizeTotal / NUM_QUARTILES
          + (if i = NUM_QUARTILES - 1 then seed_fake_count seedSizeTotal % NUM_QUARTILES
             else 0))
        + (val_fake_count valSizeTotal / NUM_QUARTILES
          + (if i = NUM_QUARTILES - 1 then val_fake_count valSizeTotal % NUM_QUARTILES
             else 0))
        ≤ (pySlice fake ((quartilesFor fake.length).getD i (0, 0)).1
            ((quartilesFor fake.length).getD i (0, 0)).2).length) :
    ((splitFakeContribs shuffle s0 seedSizeTotal valSizeTotal fake).1).length
      = NUM_QUARTILES ∧
    ∀ i, i < NUM_QUARTILES →
      (((splitFakeContribs shuffle s0 seedSizeTotal valSizeTotal fake).1.getD i
          ⟨[], [], []⟩).seed.length
        = seed_fake_count seedSizeTotal / NUM_QUARTILES
          + (if i = NUM_QUARTILES - 1 then seed_fake_count seedSizeTotal % NUM_QUARTILES
             else 0)) ∧
      (((splitFakeContribs shuffle s0 seedSizeTotal valSizeTotal fake).1.getD i
          ⟨[], [], []⟩).val.length
        = val_fake_count valSizeTotal / NUM_QUARTILES
          + (if i = NUM_QUARTILES - 1 then val_fake_count valSizeTotal % NUM_QUARTILES
             else 0)) := by
  obtain ⟨q0, q1, q2, q3, hq⟩ := quartilesFor_four fake.length
  have h0 := hbig 0 (by norm_num [NUM_QUARTILES])
  have h1 := hbig 1 (by norm_num [NUM_QUARTILES])
  have h2 := hbig 2 (by norm_num [NUM_QUARTILES])
  have h3 := hbig 3 (by norm_num [NUM_QUARTILES])
  simp only [hq, List.getD_cons_zero, List.getD_cons_succ] at h0 h1 h2 h3
  have hunfold : splitFakeContribs shuffle s0 seedSizeTotal valSizeTotal fake
      = fakeLoop shuffle (seed_fake_count seedSizeTotal / NUM_QUARTILES)
          (val_fake_count valSizeTotal / NUM_QUARTILES)
          (seed_fake_count seedSizeTotal % NUM_QUARTILES)
          (val_fake_count valSizeTotal % NUM_QUARTILES)
          fake (quartilesFor fake.length) 0 s0 := rfl
  obtain ⟨st0, en0⟩ := q0
  obtain ⟨st1, en1⟩ := q1
  obtain ⟨st2, en2⟩ := q2
  obtain ⟨st3, en3⟩ := q3
  have g0 : 0 < (pySlice fake st0 en0).length := h0.1
  have g1 : 0 < (pySlice fake st1 en1).length := h1.1
  have g2 : 0 < (pySlice fake st2 en2).length := h2.1
  have g3 : 0 < (pySlice fake st3 en3).length := h3.1
  have b0 : seed_fake_count seedSizeTotal / 4
      + val_fake_count valSizeTotal / 4
      ≤ (pySlice fake st0 en0).length := by
    have hb := h0.2
    simpa [NUM_QUARTILES] using hb
  have b1 : seed_fake_count seedSizeTotal / 4
      + val_fake_count valSizeTotal / 4
      ≤ (pySlice fake st1 en1).length := by
    have hb := h1.2
    simpa [NUM_QUARTILES] using hb
  have b2 : seed_fake_count seedSizeTotal / 4
      + val_fake_count valSizeTotal / 4
      ≤ (pySlice fake st2 en2).length := by
    have hb := h2.2
    simpa [NUM_QUARTILES] using hb
  have b3 : (seed_fake_count seedSizeTotal / 4
        + seed_fake_count seedSizeTotal % 4)
      + (val_fake_count valSizeTotal / 4
        + val_fake_count valSizeTotal % 4)
      ≤ (pySlice fake st3 en3).length := by
    have hb := h3.2
    simpa [NUM_QUARTILES] using hb
  have e0 : (shuffle s0 (pySlice fake st0 en0)).1.length
      = (pySlice fake st0 en0).length := (hperm _ _).length_eq
  have e1 : (shuffle (shuffle s0 (pySlice fake st0 en0)).2 (pySlice fake st1 en1)).1.length
      = (pySlice fake st1 en1).length := (hperm _ _).length_eq
  have e2 : (shuffle (shuffle (shuffle s0 (pySlice fake st0 en0)).2
        (pySlice fake st1 en1)).2 (pySlice fake st2 en2)).1.length
      = (pySlice fake st2 en2).length := (hperm _ _).length_eq
  have e3 : (shuffle (shuffle (shuffle (shuffle s0 (pySlice fake st0 en0)).2
        (pySlice fake st1 en1)).2 (pySlice fake st2 en2)).2 (pySlice fake st3 en3)).1.length
      = (pySlice fake st3 en3).length := (hperm _ _).length_eq
  rw [hunfold, hq]
  rw [fakeLoop_cons_ne _ _ _ _ _ _ _ _ _ _ _ (by omega)]
  rw [fakeLoop_cons_ne _ _ _ _ _ _ _ _ _ _ _ (by omega)]
  rw [fakeLoop_cons_ne _ _ _ _ _ _ _ _ _ _ _ (by omega)]
  rw [fakeLoop_cons_ne _ _ _ _ _ _ _ _ _ _ _ (by omega)]
  refine ⟨rfl, ?_⟩
  intro i hi
  simp only [NUM_QUARTILES] at hi
  interval_cases i <;>
    simp only [List.getD_cons_zero, List.getD_cons_succ] <;>
    constructor <;>
    simp [NUM_QUARTILES, List.length_take, List.length_drop] <;>
    omega

end Splitter

namespace Splitter

/-- Closed witness for C3 with the concrete generator on 40 fake records. -/
theorem C3_quartile_quotas_witness :
    ((splitFakeContribs revShuffle 0 8 4 (List.range 40)).1).length = NUM_QUARTILES ∧
    ∀ i, i < NUM_QUARTILES →
      (((splitFakeContribs revShuffle 0 8 4 (List.range 40)).1.getD i
          ⟨[], [], []⟩).seed.length
        = seed_fake_count 8 / NUM_QUARTILES
          + (if i = NUM_QUARTILES - 1 then seed_fake_count 8 % NUM_QUARTILES else 0)) ∧
      (((splitFakeContribs revShuffle 0 8 4 (List.range 40)).1.getD i
          ⟨[], [], []⟩).val.length
        = val_fake_count 4 / NUM_QUARTILES
          + (if i = NUM_QUARTILES - 1 then val_fake_count 4 % NUM_QUARTILES else 0)) :=
  C3_quartile_quotas revShuffle revShuffle_perm 0 8 4 (List.range 40) (by decide)

end Splitter

namespace Splitter

/-- The six destination directories of the output tree, in copy order
(STEP 6, lines 277-293). -/
def DEST_DIRS : List String :=
  [OUTPUT_DIR ++ "/seed/real", OUTPUT_DIR ++ "/seed/fake",
   OUTPUT_DIR ++ "/validation/real", OUTPUT_DIR ++ "/validation/fake",
   OUTPUT_DIR ++ "/pool/real", OUTPUT_DIR ++ "/pool/fake"]

/-- The six selected-file lists of an assignment, in copy order. -/
def copyLists (a : SplitAssignment FileRef) : List (List FileRef) :=
  [a.seedReals, a.seedFakes, a.valReals, a.valFakes, a.poolReals, a.poolFakes]

/-- Specification of one `copy_files` call: when every listed source is
readable and none of them lives in the destination directory, the call
succeeds; any path outside the destination directory — or whose filename
is not among the copied names — reads exactly as before; and if the
copied filenames are distinct, each source's content is found at the
destination under the source's filename. -/
theorem copy_files_spec (files : List FileRef) (d : String) :
    ∀ fs : FS β,
      (∀ f ∈ files, (fs.read f).isSome) →
      (∀ f ∈ files, f.dir ≠ d) →
      ∃ fs1, copy_files fs files d = .ok fs1 ∧
        (∀ p : FileRef, (p.dir ≠ d ∨ p.name ∉ files.map FileRef.name) →
          fs1.read p = fs.read p) ∧
        ((files.map FileRef.name).Nodup →
          ∀ f ∈ files, fs1.read ⟨d, f.name⟩ = fs.read f) := by
  induction files with
  | nil =>
    intro fs _ _
    exact ⟨fs, rfl, fun p _ => rfl, fun _ f hf => absurd hf (List.not_mem_nil f)⟩
  | cons f rest ih =>
    intro fs hex hdir
    obtain ⟨c, hc⟩ : ∃ c, fs.read f = some c :=
      Option.isSome_iff_exists.mp (hex f (List.mem_cons_self f rest))
    have hstep : copy_files fs (f :: rest) d
        = copy_files (fs.write ⟨d, f.name⟩ c) rest d := by
      simp [copy_files, copy2, hc, Bind.bind, Except.bind]
    have hkey : f ≠ (⟨d, f.name⟩ : FileRef) := by
      intro hgf
      exact hdir f (List.mem_cons_self f rest) (congrArg FileRef.dir hgf)
    have hex1 : ∀ g ∈ rest, ((fs.write ⟨d, f.name⟩ c).read g).isSome := by
      intro g hg
      rw [FS.read_write_ne]
      · exact hex g (List.mem_cons_of_mem f hg)
      · intro hgf
        exact hdir g (List.mem_cons_of_mem f hg) (congrArg FileRef.dir hgf)
    have hdir1 : ∀ g ∈ rest, g.dir ≠ d := fun g hg => hdir g (List.mem_cons_of_mem f hg)
    obtain ⟨fs1, hok, hpres, hdest⟩ := ih (fs.write ⟨d, f.name⟩ c) hex1 hdir1
    refine ⟨fs1, by rw [hstep]; exact hok, ?_, ?_⟩
    · intro p hp
      have hnotrest : p.dir ≠ d ∨ p.name ∉ rest.map FileRef.name := by
        rcases hp with hp | hp
        · exact Or.inl hp
        · refine Or.inr fun hmem => hp ?_
          rw [List.map_cons]
          exact List.mem_cons_of_mem _ hmem
      rw [hpres p hnotrest]
      rcases hp with hp | hp
      · exact FS.read_write_ne fs (⟨d, f.name⟩ : FileRef) p c
          (fun hpk => hp (congrArg FileRef.dir hpk))
      · refine FS.read_write_ne fs (⟨d, f.name⟩ : FileRef) p c fun hpk => hp ?_
        rw [List.map_cons, hpk]
        exact List.mem_cons_self _ _
    · intro hnodup g hg
      rw [List.map_cons, List.nodup_cons] at hnodup
      rcases List.mem_cons.mp hg with rfl | hg2
      · have hp1 : fs1.read ⟨d, g.name⟩ = (fs.write ⟨d, g.name⟩ c).read ⟨d, g.name⟩ :=
          hpres ⟨d, g.name⟩ (Or.inr hnodup.1)
        rw [hp1, FS.read_write_same, hc]
      · rw [hdest hnodup.2 g hg2]
        exact FS.read_write_ne fs (⟨d, f.name⟩ : FileRef) g c
          (fun hgf => hdir1 g hg2 (congrArg FileRef.dir hgf))

end Splitter

namespace Splitter

/-- C7: the copy phase copies and never moves or deletes: on any file
system where the selected files exist under the two source directories
(with distinct filenames per list), all six `copy_files` calls succeed,
every path under a source directory still reads exactly as before the
run, and each selected file also appears in its destination split/class
directory under its original filename with its original content. -/
theorem C7_copy_not_move (fs : FS β) (a : SplitAssignment FileRef)
    (hsrc : ∀ l ∈ copyLists a, ∀ f ∈ l, f.dir = REAL_DIR ∨ f.dir = FAKE_DIR)
    (hex : ∀ l ∈ copyLists a, ∀ f ∈ l, (fs.read f).isSome)
    (hnd : ∀ l ∈ copyLists a, (l.map FileRef.name).Nodup) :
    ∃ fs1, copyPhase fs a = .ok fs1 ∧
      (∀ p : FileRef, p.dir = REAL_DIR ∨ p.dir = FAKE_DIR → fs1.read p = fs.read p) ∧
      (∀ f ∈ a.seedReals, fs1.read ⟨OUTPUT_DIR ++ "/seed/real", f.name⟩ = fs.read f) ∧
      (∀ f ∈ a.seedFakes, fs1.read ⟨OUTPUT_DIR ++ "/seed/fake", f.name⟩ = fs.read f) ∧
      (∀ f ∈ a.valReals, fs1.read ⟨OUTPUT_DIR ++ "/validation/real", f.name⟩ = fs.read f) ∧
      (∀ f ∈ a.valFakes, fs1.read ⟨OUTPUT_DIR ++ "/validation/fake", f.name⟩ = fs.read f) ∧
      (∀ f ∈ a.poolReals, fs1.read ⟨OUTPUT_DIR ++ "/pool/real", f.name⟩ = fs.read f) ∧
      (∀ f ∈ a.poolFakes, fs1.read ⟨OUTPUT_DIR ++ "/pool/fake", f.name⟩ = fs.read f) := by
  have m1 : a.seedReals ∈ copyLists a := by simp [copyLists]
  have m2 : a.seedFakes ∈ copyLists a := by simp [copyLists]
  have m3 : a.valReals ∈ copyLists a := by simp [copyLists]
  have m4 : a.valFakes ∈ copyLists a := by simp [copyLists]
  have m5 : a.poolReals ∈ copyLists a := by simp [copyLists]
  have m6 : a.poolFakes ∈ copyLists a := by simp [copyLists]
  obtain ⟨t1, k1, p1, e1⟩ := copy_files_spec a.seedReals (OUTPUT_DIR ++ "/seed/real") fs
    (hex _ m1)
    (fun f hf => by rcases hsrc _ m1 f hf with h | h <;> rw [h] <;> decide)
  have P1 : ∀ p : FileRef, p.dir = REAL_DIR ∨ p.dir = FAKE_DIR →
      t1.read p = fs.read p := fun p hp =>
    p1 p (Or.inl (by rcases hp with h | h <;> rw [h] <;> decide))
  obtain ⟨t2, k2, p2, e2⟩ := copy_files_spec a.seedFakes (OUTPUT_DIR ++ "/seed/fake") t1
    (fun f hf => by rw [P1 f (hsrc _ m2 f hf)]; exact hex _ m2 f hf)
    (fun f hf => by rcases hsrc _ m2 f hf with h | h <;> rw [h] <;> decide)
  have P2 : ∀ p : FileRef, p.dir = REAL_DIR ∨ p.dir = FAKE_DIR →
      t2.read p = fs.read p := fun p hp => by
    rw [p2 p (Or.inl (by rcases hp with h | h <;> rw [h] <;> decide))]
    exact P1 p hp
  obtain ⟨t3, k3, p3, e3⟩ := copy_files_spec a.valReals (OUTPUT_DIR ++ "/validation/real") t2
    (fun f hf => by rw [P2 f (hsrc _ m3 f hf)]; exact hex _ m3 f hf)
    (fun f hf => by rcases hsrc _ m3 f hf with h | h <;> rw [h] <;> decide)
  have P3 : ∀ p : FileRef, p.dir = REAL_DIR ∨ p.dir = FAKE_DIR →
      t3.read p = fs.read p := fun p hp => by
    rw [p3 p (Or.inl (by rcases hp with h | h <;> rw [h] <;> decide))]
    exact P2 p hp
  obtain ⟨t4, k4, p4, e4⟩ := copy_files_spec a.valFakes (OUTPUT_DIR ++ "/validation/fake") t3
    (fun f hf => by rw [P3 f (hsrc _ m4 f hf)]; exact hex _ m4 f hf)
    (fun f hf => by rcases hsrc _ m4 f hf with h | h <;> rw [h] <;> decide)
  have P4 : ∀ p : FileRef, p.dir = REAL_DIR ∨ p.dir = FAKE_DIR →
      t4.read p = fs.read p := fun p hp => by
    rw [p4 p (Or.inl (by rcases hp with h | h <;> rw [h] <;> decide))]
    exact P3 p hp
  obtain ⟨t5, k5, p5, e5⟩ := copy_files_spec a.poolReals (OUTPUT_DIR ++ "/pool/real") t4
    (fun f hf => by rw [P4 f (hsrc _ m5 f hf)]; exact hex _ m5 f hf)
    (fun f hf => by rcases hsrc _ m5 f hf with h | h <;> rw [h] <;> decide)
  have P5 : ∀ p : FileRef, p.dir = REAL_DIR ∨ p.dir = FAKE_DIR →
      t5.read p = fs.read p := fun p hp => by
    rw [p5 p (Or.inl (by rcases hp with h | h <;> rw [h] <;> decide))]
    exact P4 p hp
  obtain ⟨t6, k6, p6, e6⟩ := copy_files_spec a.poolFakes (OUTPUT_DIR ++ "/pool/fake") t5
    (fun f hf => by rw [P5 f (hsrc _ m6 f hf)]; exact hex _ m6 f hf)
    (fun f hf => by rcases hsrc _ m6 f hf with h | h <;> rw [h] <;> decide)
  have P6 : ∀ p : FileRef, p.dir = REAL_DIR ∨ p.dir = FAKE_DIR →
      t6.read p = fs.read p := fun p hp => by
    rw [p6 p (Or.inl (by rcases hp with h | h <;> rw [h] <;> decide))]
    exact P5 p hp
  have q12 : (OUTPUT_DIR ++ "/seed/real" : String) ≠ OUTPUT_DIR ++ "/seed/fake" := by decide
  have q13 : (OUTPUT_DIR ++ "/seed/real" : String) ≠ OUTPUT_DIR ++ "/validation/real" := by decide
  have q14 : (OUTPUT_DIR ++ "/seed/real" : String) ≠ OUTPUT_DIR ++ "/validation/fake" := by decide
  have q15 : (OUTPUT_DIR ++ "/seed/real" : String) ≠ OUTPUT_DIR ++ "/pool/real" := by decide
  have q16 : (OUTPUT_DIR ++ "/seed/real" : String) ≠ OUTPUT_DIR ++ "/pool/fake" := by decide
  have q23 : (OUTPUT_DIR ++ "/seed/fake" : String) ≠ OUTPUT_DIR ++ "/validation/real" := by decide
  have q24 : (OUTPUT_DIR ++ "/seed/fake" : String) ≠ OUTPUT_DIR ++ "/validation/fake" := by decide
  have q25 : (OUTPUT_DIR ++ "/seed/fake" : String) ≠ OUTPUT_DIR ++ "/pool/real" := by decide
  have q26 : (OUTPUT_DIR ++ "/seed/fake" : String) ≠ OUTPUT_DIR ++ "/pool/fake" := by decide
  have q34 : (OUTPUT_DIR ++ "/validation/real" : String) ≠ OUTPUT_DIR ++ "/validation/fake" := by decide
  have q35 : (OUTPUT_DIR ++ "/validation/real" : String) ≠ OUTPUT_DIR ++ "/pool/real" := by decide
  have q36 : (OUTPUT_DIR ++ "/validation/real" : String) ≠ OUTPUT_DIR ++ "/pool/fake" := by decide
  have q45 : (OUTPUT_DIR ++ "/validation/fake" : String) ≠ OUTPUT_DIR ++ "/pool/real" := by decide
  have q46 : (OUTPUT_DIR ++ "/validation/fake" : String) ≠ OUTPUT_DIR ++ "/pool/fake" := by decide
  have q56 : (OUTPUT_DIR ++ "/pool/real" : String) ≠ OUTPUT_DIR ++ "/pool/fake" := by decide
  refine ⟨t6, ?_, P6, ?_, ?_, ?_, ?_, ?_, ?_⟩
  · simp only [copyPhase, k1, k2, k3, k4, k5, k6, Bind.bind, Except.bind, pure,
      Except.pure]
  · intro f hf
    rw [p6 _ (Or.inl q16), p5 _ (Or.inl q15), p4 _ (Or.inl q14), p3 _ (Or.inl q13),
      p2 _ (Or.inl q12)]
    exact e1 (hnd _ m1) f hf
  · intro f hf
    rw [p6 _ (Or.inl q26), p5 _ (Or.inl q25), p4 _ (Or.inl q24), p3 _ (Or.inl q23),
      e2 (hnd _ m2) f hf]
    exact P1 f (hsrc _ m2 f hf)
  · intro f hf
    rw [p6 _ (Or.inl q36), p5 _ (Or.inl q35), p4 _ (Or.inl q34), e3 (hnd _ m3) f hf]
    exact P2 f (hsrc _ m3 f hf)
  · intro f hf
    rw [p6 _ (Or.inl q46), p5 _ (Or.inl q45), e4 (hnd _ m4) f hf]
    exact P3 f (hsrc _ m4 f hf)
  · intro f hf
    rw [p6 _ (Or.inl q56), e5 (hnd _ m5) f hf]
    exact P4 f (hsrc _ m5 f hf)
  · intro f hf
    rw [e6 (hnd _ m6) f hf]
    exact P5 f (hsrc _ m6 f hf)

end Splitter

namespace Splitter

/-- A concrete six-list assignment used by the C7 witness. -/
def witnessAssignment : SplitAssignment FileRef :=
  { seedReals := [⟨REAL_DIR, "r1.jpg"⟩]
    valReals := [⟨REAL_DIR, "r2.jpg"⟩]
    poolReals := [⟨REAL_DIR, "r3.jpg"⟩]
    seedFakes := [⟨FAKE_DIR, "f1.jpg"⟩]
    valFakes := [⟨FAKE_DIR, "f2.jpg"⟩]
    poolFakes := [⟨FAKE_DIR, "f3.jpg"⟩] }

/-- A concrete file system holding the six witness source files. -/
def witnessFS : FS String :=
  [(⟨REAL_DIR, "r1.jpg"⟩, "A"), (⟨REAL_DIR, "r2.jpg"⟩, "B"),
   (⟨REAL_DIR, "r3.jpg"⟩, "C"), (⟨FAKE_DIR, "f1.jpg"⟩, "D"),
   (⟨FAKE_DIR, "f2.jpg"⟩, "E"), (⟨FAKE_DIR, "f3.jpg"⟩, "F")]

/-- Closed witness for C7 on the concrete assignment and file system. -/
theorem C7_copy_not_move_witness :
    (∀ l ∈ copyLists witnessAssignment, ∀ f ∈ l,
      f.dir = REAL_DIR ∨ f.dir = FAKE_DIR) ∧
    ∃ fs1, copyPhase witnessFS witnessAssignment = .ok fs1 ∧
      (∀ p : FileRef, p.dir = REAL_DIR ∨ p.dir = FAKE_DIR →
        fs1.read p = witnessFS.read p) ∧
      (∀ f ∈ witnessAssignment.seedReals,
        fs1.read ⟨OUTPUT_DIR ++ "/seed/real", f.name⟩ = witnessFS.read f) ∧
      (∀ f ∈ witnessAssignment.seedFakes,
        fs1.read ⟨OUTPUT_DIR ++ "/seed/fake", f.name⟩ = witnessFS.read f) ∧
      (∀ f ∈ witnessAssignment.valReals,
        fs1.read ⟨OUTPUT_DIR ++ "/validation/real", f.name⟩ = witnessFS.read f) ∧
      (∀ f ∈ witnessAssignment.valFakes,
        fs1.read ⟨OUTPUT_DIR ++ "/validation/fake", f.name⟩ = witnessFS.read f) ∧
      (∀ f ∈ witnessAssignment.poolReals,
        fs1.read ⟨OUTPUT_DIR ++ "/pool/real", f.name⟩ = witnessFS.read f) ∧
      (∀ f ∈ witnessAssignment.poolFakes,
        fs1.read ⟨OUTPUT_DIR ++ "/pool/fake", f.name⟩ = witnessFS.read f) :=
  ⟨by decide,
    C7_copy_not_move witnessFS witnessAssignment (by decide) (by decide) (by decide)⟩

end Splitter
